import Mathlib

/-
Verification of the OAuth 2.0 authorization endpoint handler
(src/src/mcp/server/auth/handlers/authorize.py).

The Python module is shallowly embedded below:
* the raw starlette parameter bag (QueryParams / FormData) becomes `Params`,
  a list of key/value pairs whose values are either strings or non-string
  form values (file uploads); lookups keep the LAST occurrence of a key,
  matching starlette's multidict semantics;
* pydantic validation of `AuthorizationRequest` becomes `authzValidate`,
  which checks each declared field in declaration order and aggregates the
  field errors exactly as pydantic reports them (loc and type per error);
* the nested async `error_response` closure, which mutates the nonlocal
  variables client / redirect_uri / state, becomes a pure function from a
  `RecoveryContext` to the updated context and the produced response;
* provider collaborators are modelled as total functions with their declared
  error channels (`Except`), which is the interface-conformance assumption of
  the spec; the one unanticipated-failure source inside the top-level try is
  the POST body read, modelled as the `form` field of `HttpRequest` being an
  `Except.error`.
-/

namespace MCPAuthorize

/-- A value in the raw parameter bag: either a plain string or a non-string
form value (e.g. a file upload in POST form data). -/
inductive ParamValue where
  | str (s : String)
  | file
deriving DecidableEq

/-- The raw parameter bag (starlette QueryParams or FormData). -/
abbrev Params := List (String × ParamValue)

/-- Lookup in the bag. Starlette multidicts build an internal dict keeping the
last value for a repeated key, so `get` returns the last occurrence. -/
def Params.get (ps : Params) (key : String) : Option ParamValue :=
  (List.find? (fun p => p.1 == key) ps.reverse).map Prod.snd

/-- Key membership test, as used by the Python expression
`"redirect_uri" not in params`. -/
def Params.containsKey (ps : Params) (key : String) : Bool :=
  (Params.get ps key).isSome

/-- Lines 52-58: returns the value only when the bag exists, the key is
present and its value is literally a string. -/
def best_effort_extract_string (key : String) (params : Option Params) : Option String :=
  match params with
  | none => none
  | some ps =>
    match Params.get ps key with
    | some (ParamValue.str s) => some s
    | _ => none

/-- A URL accepted by pydantic's `AnyUrl`. The embedding records the raw
string; normalisation performed by pydantic is not modelled since no claim
depends on it. -/
structure Url where
  toStr : String
deriving DecidableEq

/-- Splits a character list at the first occurrence of the scheme separator
"://", returning the characters before and after it. -/
def splitSchemeAux (acc : List Char) : List Char → Option (List Char × List Char)
  | ':' :: '/' :: '/' :: rest => some (acc.reverse, rest)
  | c :: rest => splitSchemeAux (c :: acc) rest
  | [] => none

/-- Model of pydantic's `AnyUrl` syntactic check: the string must be an
absolute URL, i.e. a non-empty scheme, the separator "://", and a non-empty
remainder. -/
def isValidUrl (s : String) : Bool :=
  match splitSchemeAux [] s.data with
  | some (scheme, rest) => !scheme.isEmpty && !rest.isEmpty
  | none => false

/-- `AnyUrlModel.model_validate` on a string: succeeds exactly on valid
absolute URLs (line 61-62 and pydantic AnyUrl semantics). -/
def parseAnyUrl (s : String) : Option Url :=
  if isValidUrl s then some ⟨s⟩ else none

/-- One pydantic field error: `loc` is the field name (the Python code reads
`e["loc"]`), `etype` is the error type string (the Python code reads
`e["type"]`). -/
structure FieldError where
  loc : String
  etype : String
deriving DecidableEq

/-- The OAuth error code taxonomy (`AuthorizationErrorCode`). -/
inductive AuthorizationErrorCode where
  | invalid_request
  | unauthorized_client
  | access_denied
  | unsupported_response_type
  | invalid_scope
  | server_error
  | temporarily_unavailable
deriving DecidableEq

/-- Serialisation of an error code, as used by `model_dump`. -/
def AuthorizationErrorCode.toStr : AuthorizationErrorCode → String
  | .invalid_request => "invalid_request"
  | .unauthorized_client => "unauthorized_client"
  | .access_denied => "access_denied"
  | .unsupported_response_type => "unsupported_response_type"
  | .invalid_scope => "invalid_scope"
  | .server_error => "server_error"
  | .temporarily_unavailable => "temporarily_unavailable"

/-- Lines 44-49: the structured error body. `error_uri` is never set by the
handler. -/
structure AuthorizationErrorResponse where
  error : AuthorizationErrorCode
  error_description : Option String
  error_uri : Option Url
  state : Option String
deriving DecidableEq

/-- `error_resp.model_dump(exclude_none=True)`: the non-absent fields, in
field declaration order, serialised to strings. -/
def model_dump_exclude_none (r : AuthorizationErrorResponse) : List (String × String) :=
  [("error", r.error.toStr)]
    ++ (match r.error_description with
        | some d => [("error_description", d)]
        | none => [])
    ++ (match r.error_uri with
        | some u => [("error_uri", u.toStr)]
        | none => [])
    ++ (match r.state with
        | some s => [("state", s)]
        | none => [])

/-- Lines 24-41: the validated authorization request. `response_type` is
constrained to the literal "code" and `code_challenge_method` to "S256" by
validation. -/
structure AuthorizationRequest where
  client_id : String
  redirect_uri : Option Url
  response_type : String
  code_challenge : String
  code_challenge_method : String
  state : Option String
  scope : Option String
  resource : Option String
deriving DecidableEq

/-- Pydantic check of a required `str` field: missing key gives a `missing`
error, a non-string value a `string_type` error. -/
def check_required_str (ps : Params) (key : String) : Except FieldError String :=
  match Params.get ps key with
  | none => Except.error ⟨key, "missing"⟩
  | some (ParamValue.str s) => Except.ok s
  | some ParamValue.file => Except.error ⟨key, "string_type"⟩

/-- Pydantic check of an optional `str | None` field (defaults to None). -/
def check_optional_str (ps : Params) (key : String) : Except FieldError (Option String) :=
  match Params.get ps key with
  | none => Except.ok none
  | some (ParamValue.str s) => Except.ok (some s)
  | some ParamValue.file => Except.error ⟨key, "string_type"⟩

/-- Pydantic check of the optional `AnyUrl | None` field `redirect_uri`. -/
def check_optional_url (ps : Params) (key : String) : Except FieldError (Option Url) :=
  match Params.get ps key with
  | none => Except.ok none
  | some (ParamValue.str s) =>
    match parseAnyUrl s with
    | some u => Except.ok (some u)
    | none => Except.error ⟨key, "url_parsing"⟩
  | some ParamValue.file => Except.error ⟨key, "url_parsing"⟩

/-- Pydantic check of a `Literal[lit]` field; when not required the literal
is the default. Any present value other than the literal string yields a
`literal_error`. -/
def check_literal (ps : Params) (key lit : String) (required : Bool) :
    Except FieldError String :=
  match Params.get ps key with
  | none => if required then Except.error ⟨key, "missing"⟩ else Except.ok lit
  | some (ParamValue.str s) =>
    if s == lit then Except.ok s else Except.error ⟨key, "literal_error"⟩
  | some ParamValue.file => Except.error ⟨key, "literal_error"⟩

/-- The error list contributed by one field check. -/
def errsOf {α : Type} (r : Except FieldError α) : List FieldError :=
  match r with
  | Except.ok _ => []
  | Except.error e => [e]

/-- All field errors of `AuthorizationRequest.model_validate(params)`, in
field declaration order (pydantic reports errors in that order). -/
def authz_field_errors (ps : Params) : List FieldError :=
  errsOf (check_required_str ps "client_id")
    ++ errsOf (check_optional_url ps "redirect_uri")
    ++ errsOf (check_literal ps "response_type" "code" true)
    ++ errsOf (check_required_str ps "code_challenge")
    ++ errsOf (check_literal ps "code_challenge_method" "S256" false)
    ++ errsOf (check_optional_str ps "state")
    ++ errsOf (check_optional_str ps "scope")
    ++ errsOf (check_optional_str ps "resource")

/-- `AuthorizationRequest.model_validate(params)` (line 155): the typed
request when every field validates, otherwise the aggregated field errors. -/
def authzValidate (ps : Params) : Except (List FieldError) AuthorizationRequest :=
  match check_required_str ps "client_id", check_optional_url ps "redirect_uri",
      check_literal ps "response_type" "code" true,
      check_required_str ps "code_challenge",
      check_literal ps "code_challenge_method" "S256" false,
      check_optional_str ps "state", check_optional_str ps "scope",
      check_optional_str ps "resource" with
  | Except.ok c, Except.ok r, Except.ok t, Except.ok cc, Except.ok ccm,
      Except.ok s, Except.ok sc, Except.ok res =>
    Except.ok ⟨c, r, t, cc, ccm, s, sc, res⟩
  | _, _, _, _, _, _, _, _ => Except.error (authz_field_errors ps)

/-- Lines 198-205: the validated bundle handed to the provider's authorize
step. -/
structure AuthorizationParams where
  state : Option String
  scopes : List String
  code_challenge : String
  redirect_uri : Url
  redirect_uri_provided_explicitly : Bool
  resource : Option String
deriving DecidableEq

/-- A registered client, as seen by the handler: the two provider-owned
validation operations, each failing with its named error's message
(`InvalidRedirectUriError.message`, `InvalidScopeError.message`). -/
structure OAuthClient where
  validate_redirect_uri : Option Url → Except String Url
  validate_scope : Option String → Except String (List String)

/-- The structured error the provider's authorize step may fail with. -/
structure AuthorizeError where
  error : AuthorizationErrorCode
  error_description : Option String

/-- The provider collaborator: `get_client` and `authorize`, per the
interface the handler consumes. -/
structure Provider where
  get_client : String → Option OAuthClient
  authorize : OAuthClient → AuthorizationParams → Except AuthorizeError String

/-- The structured responses the handler can produce: a 302 redirect or a
direct JSON error body. Both carry the Cache-Control header value. -/
inductive Response where
  | redirect (location : String) (status : Nat) (cacheControl : String)
  | jsonError (status : Nat) (body : AuthorizationErrorResponse) (cacheControl : String)
deriving DecidableEq

/-- The nonlocal triple (client, redirect_uri, state) of `handle`
(lines 73-75), threaded explicitly through `error_response`. -/
structure RecoveryContext where
  client : Option OAuthClient
  redirect_uri : Option Url
  state : Option String

/-- Modelled from the spec: `construct_redirect_uri` is imported from
`mcp.server.auth.provider`, which is not part of the sources; per the spec it
builds the Location by appending the given key/value pairs as query
parameters to the redirect URI. -/
def construct_redirect_uri (redirectUriBase : String) (qparams : List (String × String)) :
    String :=
  match qparams with
  | [] => redirectUriBase
  | _ =>
    let qs := String.intercalate "&" (qparams.map (fun p => p.1 ++ "=" ++ p.2))
    if redirectUriBase.data.any (fun ch => ch == Char.ofNat 63) then
      redirectUriBase ++ "&" ++ qs
    else redirectUriBase ++ "?" ++ qs

/-- Modelled from the spec: `stringify_pydantic_error` is imported from
`mcp.server.auth.errors`, which is not part of the sources; per the spec it
aggregates all field errors into a single human-readable description. -/
def stringify_pydantic_error (errs : List FieldError) : String :=
  String.intercalate "; " (errs.map (fun e => e.loc ++ ": " ++ e.etype))

/-- A single-quote character, written via its code point. -/
def squote : String := (Char.ofNat 39).toString

/-- The message of line 173: Client ID (quoted) not found. -/
def clientNotFoundMessage (cid : String) : String :=
  "Client ID " ++ squote ++ cid ++ squote ++ " not found"

/-- Lines 99-102: last-ditch client recovery. The Python expression
`client_id and await self.provider.get_client(client_id)` leaves the falsy
empty string in `client` when `client_id` is empty; since every later use of
`client` is a truthiness test, that is modelled as absence. -/
def recover_client (provider : Provider) (params : Option Params)
    (client : Option OAuthClient) (attempt_load_client : Bool) : Option OAuthClient :=
  if client.isNone && attempt_load_client then
    match best_effort_extract_string "client_id" params with
    | none => none
    | some cid => if cid == "" then none else provider.get_client cid
  else client

/-- Lines 106-111: the raw redirect-uri candidate inside the recovery try
block. A key literally absent from an existing bag means "use the client
default" (ok none); otherwise the extracted value must parse as a URL, and a
missing bag or unextractable or unparsable value raises ValidationError
(modelled as `Except.error`). -/
def recover_raw_redirect (params : Option Params) : Except Unit (Option Url) :=
  match params with
  | some ps =>
    if !(Params.containsKey ps "redirect_uri") then Except.ok none
    else
      match best_effort_extract_string "redirect_uri" (some ps) with
      | some s =>
        match parseAnyUrl s with
        | some u => Except.ok (some u)
        | none => Except.error ()
      | none => Except.error ()
  | none => Except.error ()

/-- Lines 103-116: last-ditch redirect-uri recovery, attempted only when the
redirect URI is unknown and a client is known; any ValidationError or
InvalidRedirectUriError is swallowed, leaving the redirect URI unknown. -/
def recover_redirect_uri (params : Option Params) (redirect_uri : Option Url)
    (client : Option OAuthClient) : Option Url :=
  match redirect_uri, client with
  | none, some c =>
    (match recover_raw_redirect params with
     | Except.error _ => none
     | Except.ok raw =>
       match c.validate_redirect_uri raw with
       | Except.ok u => some u
       | Except.error _ => none)
  | ru, _ => ru

/-- Lines 119-121: last-ditch state recovery. -/
def recover_state (params : Option Params) (state : Option String) : Option String :=
  match state with
  | some s => some s
  | none => best_effort_extract_string "state" params

/-- Lines 78-140: the nested `error_response` closure. It takes the current
nonlocal context and returns the updated context together with the produced
response: a 302 redirect to the validated redirect URI with the non-absent
error fields as query parameters when both client and redirect URI are known,
otherwise a direct 400 JSON response. -/
def error_response (provider : Provider) (params : Option Params) (ctx : RecoveryContext)
    (error : AuthorizationErrorCode) (error_description : Option String)
    (attempt_load_client : Bool) : RecoveryContext × Response :=
  let client := recover_client provider params ctx.client attempt_load_client
  let redirect_uri := recover_redirect_uri params ctx.redirect_uri client
  let state := recover_state params ctx.state
  let error_resp : AuthorizationErrorResponse := ⟨error, error_description, none, state⟩
  match redirect_uri, client with
  | some u, some _ =>
    (⟨client, redirect_uri, state⟩,
      Response.redirect (construct_redirect_uri u.toStr (model_dump_exclude_none error_resp))
        302 "no-store")
  | _, _ => (⟨client, redirect_uri, state⟩, Response.jsonError 400 error_resp "no-store")

/-- Lines 158-162: the error code chosen for a structural validation failure.
The loop sets `unsupported_response_type` on the first error whose loc is
`("response_type",)` and whose type is `literal_error`, else keeps
`invalid_request`. -/
def classify_validation_error (errs : List FieldError) : AuthorizationErrorCode :=
  match errs.find? (fun e => e.loc == "response_type" && e.etype == "literal_error") with
  | some _ => AuthorizationErrorCode.unsupported_response_type
  | none => AuthorizationErrorCode.invalid_request

/-- The incoming HTTP request: a method, the query parameters (a GET request
always has them) and the result of reading the form body (a POST body read
can fail, which is the unanticipated-failure source inside the try block). -/
structure HttpRequest where
  method : String
  query_params : Params
  form : Except Unit Params

/-- Lines 144-149: GET uses the query parameters, anything else reads the
form body. -/
def request_params (req : HttpRequest) : Except Unit Params :=
  if req.method == "GET" then Except.ok req.query_params else req.form

/-- Lines 142-224: the handler pipeline. Failure of the parameter read is
caught by the top-level `except Exception` with all nonlocals still None;
every other stage either succeeds or routes its structured failure to
`error_response`. -/
def handle (provider : Provider) (req : HttpRequest) : Response :=
  match request_params req with
  | Except.error _ =>
    (error_response provider none ⟨none, none, none⟩ AuthorizationErrorCode.server_error
      (some "An unexpected error occurred") true).2
  | Except.ok params =>
    let state := best_effort_extract_string "state" (some params)
    match authzValidate params with
    | Except.error verr =>
      (error_response provider (some params) ⟨none, none, state⟩
        (classify_validation_error verr) (some (stringify_pydantic_error verr)) true).2
    | Except.ok auth_request =>
      let state := auth_request.state
      match provider.get_client auth_request.client_id with
      | none =>
        (error_response provider (some params) ⟨none, none, state⟩
          AuthorizationErrorCode.invalid_request
          (some (clientNotFoundMessage auth_request.client_id)) false).2
      | some client =>
        match client.validate_redirect_uri auth_request.redirect_uri with
        | Except.error msg =>
          (error_response provider (some params) ⟨some client, none, state⟩
            AuthorizationErrorCode.invalid_request (some msg) true).2
        | Except.ok redirect_uri =>
          match client.validate_scope auth_request.scope with
          | Except.error msg =>
            (error_response provider (some params) ⟨some client, some redirect_uri, state⟩
              AuthorizationErrorCode.invalid_scope (some msg) true).2
          | Except.ok scopes =>
            let auth_params : AuthorizationParams :=
              ⟨state, scopes, auth_request.code_challenge, redirect_uri,
                auth_request.redirect_uri.isSome, auth_request.resource⟩
            match provider.authorize client auth_params with
            | Except.ok url => Response.redirect url 302 "no-store"
            | Except.error e =>
              (error_response provider (some params) ⟨some client, some redirect_uri, state⟩
                e.error e.error_description true).2

/-- The classification the spec describes: the failure counts as an
unsupported response type exactly when the first literal-type violation among
the field errors (and hence the only one, when a single field is involved)
is on the response_type field. -/
def first_literal_violation_on_response_type (errs : List FieldError) : Bool :=
  match errs.find? (fun e => e.etype == "literal_error") with
  | some e => e.loc == "response_type"
  | none => false

/-- A URL known to have been returned by the validate_redirect_uri operation
of the (known) client: the only trusted source of a redirect target. -/
def ValidatedRedirect (client : Option OAuthClient) (u : Url) : Prop :=
  ∃ c raw, client = some c ∧ c.validate_redirect_uri raw = Except.ok u

/-- A concrete registered client used to instantiate theorems: its default
redirect is https://app/cb, which is also the only accepted explicit value,
and every requested scope is accepted as given. -/
def demoClient : OAuthClient :=
  ⟨fun r =>
      match r with
      | none => Except.ok ⟨"https://app/cb"⟩
      | some u =>
        if u.toStr == "https://app/cb" then Except.ok u
        else Except.error "redirect mismatch",
    fun s =>
      match s with
      | none => Except.ok []
      | some sc => Except.ok [sc]⟩

/-- A concrete provider used to instantiate theorems: it registers exactly
the client id c1 and authorizes every valid request to the consent page. -/
def demoProvider : Provider :=
  ⟨fun cid => if cid == "c1" then some demoClient else none,
    fun _ _ => Except.ok "https://as/consent?req=1"⟩

/-! ### Helper lemmas about the embedding -/

theorem recover_client_of_some (provider : Provider) (params : Option Params)
    (c : OAuthClient) (alc : Bool) :
    recover_client provider params (some c) alc = some c := by
  simp [recover_client]

theorem recover_redirect_uri_of_some (params : Option Params) (u : Url)
    (cl : Option OAuthClient) :
    recover_redirect_uri params (some u) cl = some u := by
  cases cl <;> rfl

theorem recover_state_of_some (params : Option Params) (s : String) :
    recover_state params (some s) = some s := rfl

theorem recover_redirect_uri_validated (params : Option Params) (c : OAuthClient) (u : Url)
    (h : recover_redirect_uri params none (some c) = some u) :
    ∃ raw, c.validate_redirect_uri raw = Except.ok u := by
  simp only [recover_redirect_uri] at h
  cases hraw : recover_raw_redirect params with
  | error e => simp [hraw] at h
  | ok raw =>
    simp only [hraw] at h
    cases hv : c.validate_redirect_uri raw with
    | ok u2 =>
      simp only [hv, Option.some.injEq] at h
      exact ⟨raw, by rw [hv, h]⟩
    | error m => simp [hv] at h

theorem recover_state_extract (ps : Params) :
    recover_state (some ps) (best_effort_extract_string "state" (some ps)) =
      best_effort_extract_string "state" (some ps) := by
  cases h : best_effort_extract_string "state" (some ps) <;>
    simp [recover_state, h]

theorem extract_of_check_optional_str (ps : Params) (k : String) (st : Option String)
    (h : check_optional_str ps k = Except.ok st) :
    best_effort_extract_string k (some ps) = st := by
  cases hg : Params.get ps k with
  | none =>
    simp [check_optional_str, hg] at h
    simp [best_effort_extract_string, hg, ← h]
  | some v =>
    cases v with
    | str s =>
      simp [check_optional_str, hg] at h
      simp [best_effort_extract_string, hg, ← h]
    | file => simp [check_optional_str, hg] at h

theorem raw_redirect_of_check (ps : Params) (ru : Option Url)
    (h : check_optional_url ps "redirect_uri" = Except.ok ru) :
    recover_raw_redirect (some ps) = Except.ok ru := by
  cases hg : Params.get ps "redirect_uri" with
  | none =>
    simp [check_optional_url, hg] at h
    simp [recover_raw_redirect, Params.containsKey, hg, ← h]
  | some v =>
    cases v with
    | str s =>
      cases hp : parseAnyUrl s with
      | none => simp [check_optional_url, hg, hp] at h
      | some u =>
        simp [check_optional_url, hg, hp] at h
        simp [recover_raw_redirect, Params.containsKey, best_effort_extract_string,
          hg, hp, ← h]
    | file => simp [check_optional_url, hg] at h

theorem authzValidate_error_eq (ps : Params) (errs : List FieldError)
    (h : authzValidate ps = Except.error errs) :
    errs = authz_field_errors ps := by
  unfold authzValidate at h
  split at h
  · cases h
  · cases h; rfl

theorem authzValidate_ok_fields (ps : Params) (ar : AuthorizationRequest)
    (h : authzValidate ps = Except.ok ar) :
    check_required_str ps "client_id" = Except.ok ar.client_id ∧
    check_optional_url ps "redirect_uri" = Except.ok ar.redirect_uri ∧
    check_optional_str ps "state" = Except.ok ar.state ∧
    check_optional_str ps "scope" = Except.ok ar.scope := by
  unfold authzValidate at h
  split at h
  · next c r t cc ccm s sc res h1 h2 h3 h4 h5 h6 h7 h8 =>
    cases h
    exact ⟨h1, h2, h6, h7⟩
  · cases h

theorem authzValidate_error_of_client_id (ps : Params) (e : FieldError)
    (h : check_required_str ps "client_id" = Except.error e) :
    authzValidate ps = Except.error (authz_field_errors ps) := by
  unfold authzValidate
  split
  · next c r t cc ccm s sc res h1 h2 h3 h4 h5 h6 h7 h8 =>
    rw [h1] at h; cases h
  · rfl

theorem check_required_str_error_of_extract_none (ps : Params) (k : String)
    (h : best_effort_extract_string k (some ps) = none) :
    ∃ e : FieldError, check_required_str ps k = Except.error e := by
  cases hg : Params.get ps k with
  | none => exact ⟨⟨k, "missing"⟩, by simp [check_required_str, hg]⟩
  | some v =>
    cases v with
    | str s => simp [best_effort_extract_string, hg] at h
    | file => exact ⟨⟨k, "string_type"⟩, by simp [check_required_str, hg]⟩

theorem classify_eq_unsupported_iff (errs : List FieldError) :
    classify_validation_error errs = AuthorizationErrorCode.unsupported_response_type ↔
      ∃ e ∈ errs, e.loc = "response_type" ∧ e.etype = "literal_error" := by
  unfold classify_validation_error
  cases h : errs.find? (fun e => e.loc == "response_type" && e.etype == "literal_error") with
  | none =>
    simp only [List.find?_eq_none] at h
    simp only [reduceCtorEq, false_iff]
    rintro ⟨e, he, h1, h2⟩
    exact h e he (by simp [h1, h2])
  | some e =>
    have hp := List.find?_some h
    have hm := List.mem_of_find?_eq_some h
    simp only [Bool.and_eq_true, beq_iff_eq] at hp
    simp only [true_iff]
    exact ⟨e, hm, hp.1, hp.2⟩

theorem classify_cases (errs : List FieldError) :
    classify_validation_error errs = AuthorizationErrorCode.invalid_request ∨
      classify_validation_error errs = AuthorizationErrorCode.unsupported_response_type := by
  unfold classify_validation_error
  cases h : errs.find? (fun e => e.loc == "response_type" && e.etype == "literal_error") <;>
    simp

theorem error_response_redirect_case (provider : Provider) (params : Option Params)
    (ctx : RecoveryContext) (e : AuthorizationErrorCode) (d : Option String) (alc : Bool)
    (u : Url) (c : OAuthClient)
    (hc : recover_client provider params ctx.client alc = some c)
    (hru : recover_redirect_uri params ctx.redirect_uri (some c) = some u) :
    error_response provider params ctx e d alc =
      (⟨some c, some u, recover_state params ctx.state⟩,
        Response.redirect
          (construct_redirect_uri u.toStr
            (model_dump_exclude_none ⟨e, d, none, recover_state params ctx.state⟩))
          302 "no-store") := by
  simp only [error_response, hc, hru]

theorem error_response_direct_case (provider : Provider) (params : Option Params)
    (ctx : RecoveryContext) (e : AuthorizationErrorCode) (d : Option String) (alc : Bool)
    (h : recover_redirect_uri params ctx.redirect_uri
          (recover_client provider params ctx.client alc) = none ∨
        recover_client provider params ctx.client alc = none) :
    error_response provider params ctx e d alc =
      (⟨recover_client provider params ctx.client alc,
         recover_redirect_uri params ctx.redirect_uri
           (recover_client provider params ctx.client alc),
         recover_state params ctx.state⟩,
        Response.jsonError 400 ⟨e, d, none, recover_state params ctx.state⟩ "no-store") := by
  rcases h with hru | hcl
  · simp only [error_response, hru]
  · rw [hcl]
    cases hr : recover_redirect_uri params ctx.redirect_uri none with
    | none => simp only [error_response, hcl, hr]
    | some u => simp only [error_response, hcl, hr]

theorem error_response_shape (provider : Provider) (params : Option Params)
    (ctx : RecoveryContext) (e : AuthorizationErrorCode) (d : Option String) (alc : Bool) :
    (∃ loc, (error_response provider params ctx e d alc).2 =
        Response.redirect loc 302 "no-store") ∨
    (∃ body, (error_response provider params ctx e d alc).2 =
        Response.jsonError 400 body "no-store") := by
  cases hc : recover_client provider params ctx.client alc with
  | none => right; rw [error_response_direct_case provider params ctx e d alc (Or.inr hc)]; exact ⟨_, rfl⟩
  | some c =>
    cases hru : recover_redirect_uri params ctx.redirect_uri (some c) with
    | none =>
      right
      rw [error_response_direct_case provider params ctx e d alc (Or.inl (hc ▸ hru))]
      exact ⟨_, rfl⟩
    | some u =>
      left
      rw [error_response_redirect_case provider params ctx e d alc u c hc hru]
      exact ⟨_, rfl⟩

theorem handle_params_error (provider : Provider) (req : HttpRequest) (e : Unit)
    (hp : request_params req = Except.error e) :
    handle provider req =
      (error_response provider none ⟨none, none, none⟩ AuthorizationErrorCode.server_error
        (some "An unexpected error occurred") true).2 := by
  simp only [handle, hp]

theorem handle_validation_error (provider : Provider) (req : HttpRequest) (ps : Params)
    (errs : List FieldError)
    (hp : request_params req = Except.ok ps)
    (hv : authzValidate ps = Except.error errs) :
    handle provider req =
      (error_response provider (some ps)
        ⟨none, none, best_effort_extract_string "state" (some ps)⟩
        (classify_validation_error errs) (some (stringify_pydantic_error errs)) true).2 := by
  simp only [handle, hp, hv]

theorem handle_client_not_found (provider : Provider) (req : HttpRequest) (ps : Params)
    (ar : AuthorizationRequest)
    (hp : request_params req = Except.ok ps)
    (hv : authzValidate ps = Except.ok ar)
    (hc : provider.get_client ar.client_id = none) :
    handle provider req =
      (error_response provider (some ps) ⟨none, none, ar.state⟩
        AuthorizationErrorCode.invalid_request
        (some (clientNotFoundMessage ar.client_id)) false).2 := by
  simp only [handle, hp, hv, hc]

theorem handle_redirect_rejected (provider : Provider) (req : HttpRequest) (ps : Params)
    (ar : AuthorizationRequest) (client : OAuthClient) (msg : String)
    (hp : request_params req = Except.ok ps)
    (hv : authzValidate ps = Except.ok ar)
    (hc : provider.get_client ar.client_id = some client)
    (hr : client.validate_redirect_uri ar.redirect_uri = Except.error msg) :
    handle provider req =
      (error_response provider (some ps) ⟨some client, none, ar.state⟩
        AuthorizationErrorCode.invalid_request (some msg) true).2 := by
  simp only [handle, hp, hv, hc, hr]

theorem handle_scope_rejected (provider : Provider) (req : HttpRequest) (ps : Params)
    (ar : AuthorizationRequest) (client : OAuthClient) (ru : Url) (msg : String)
    (hp : request_params req = Except.ok ps)
    (hv : authzValidate ps = Except.ok ar)
    (hc : provider.get_client ar.client_id = some client)
    (hr : client.validate_redirect_uri ar.redirect_uri = Except.ok ru)
    (hs : client.validate_scope ar.scope = Except.error msg) :
    handle provider req =
      (error_response provider (some ps) ⟨some client, some ru, ar.state⟩
        AuthorizationErrorCode.invalid_scope (some msg) true).2 := by
  simp only [handle, hp, hv, hc, hr, hs]

theorem handle_authorize_ok (provider : Provider) (req : HttpRequest) (ps : Params)
    (ar : AuthorizationRequest) (client : OAuthClient) (ru : Url) (scopes : List String)
    (url : String)
    (hp : request_params req = Except.ok ps)
    (hv : authzValidate ps = Except.ok ar)
    (hc : provider.get_client ar.client_id = some client)
    (hr : client.validate_redirect_uri ar.redirect_uri = Except.ok ru)
    (hs : client.validate_scope ar.scope = Except.ok scopes)
    (ha : provider.authorize client
        ⟨ar.state, scopes, ar.code_challenge, ru, ar.redirect_uri.isSome, ar.resource⟩ =
      Except.ok url) :
    handle provider req = Response.redirect url 302 "no-store" := by
  simp only [handle, hp, hv, hc, hr, hs, ha]

theorem handle_authorize_error (provider : Provider) (req : HttpRequest) (ps : Params)
    (ar : AuthorizationRequest) (client : OAuthClient) (ru : Url) (scopes : List String)
    (e2 : AuthorizeError)
    (hp : request_params req = Except.ok ps)
    (hv : authzValidate ps = Except.ok ar)
    (hc : provider.get_client ar.client_id = some client)
    (hr : client.validate_redirect_uri ar.redirect_uri = Except.ok ru)
    (hs : client.validate_scope ar.scope = Except.ok scopes)
    (ha : provider.authorize client
        ⟨ar.state, scopes, ar.code_challenge, ru, ar.redirect_uri.isSome, ar.resource⟩ =
      Except.error e2) :
    handle provider req =
      (error_response provider (some ps) ⟨some client, some ru, ar.state⟩
        e2.error e2.error_description true).2 := by
  simp only [handle, hp, hv, hc, hr, hs, ha]

theorem error_response_direct_resp (provider : Provider) (params : Option Params)
    (ctx : RecoveryContext) (e : AuthorizationErrorCode) (d : Option String) (alc : Bool)
    (h : recover_redirect_uri params ctx.redirect_uri
          (recover_client provider params ctx.client alc) = none ∨
        recover_client provider params ctx.client alc = none) :
    (error_response provider params ctx e d alc).2 =
      Response.jsonError 400 ⟨e, d, none, recover_state params ctx.state⟩ "no-store" := by
  rw [error_response_direct_case provider params ctx e d alc h]

theorem error_response_ctx (provider : Provider) (params : Option Params)
    (ctx : RecoveryContext) (e : AuthorizationErrorCode) (d : Option String) (alc : Bool) :
    (error_response provider params ctx e d alc).1 =
      ⟨recover_client provider params ctx.client alc,
        recover_redirect_uri params ctx.redirect_uri
          (recover_client provider params ctx.client alc),
        recover_state params ctx.state⟩ := by
  cases hc : recover_client provider params ctx.client alc with
  | none =>
    rw [error_response_direct_case provider params ctx e d alc (Or.inr hc)]
    simp [hc]
  | some c =>
    cases hru : recover_redirect_uri params ctx.redirect_uri (some c) with
    | none =>
      rw [error_response_direct_case provider params ctx e d alc
        (Or.inl (by rw [hc]; exact hru))]
      simp [hc, hru]
    | some u =>
      rw [error_response_redirect_case provider params ctx e d alc u c hc hru]

theorem errsOf_check_required_str (ps : Params) (k : String) :
    errsOf (check_required_str ps k) = [] ∨
    errsOf (check_required_str ps k) = [⟨k, "missing"⟩] ∨
    errsOf (check_required_str ps k) = [⟨k, "string_type"⟩] := by
  cases hg : Params.get ps k with
  | none => right; left; simp [check_required_str, errsOf, hg]
  | some v =>
    cases v with
    | str s => left; simp [check_required_str, errsOf, hg]
    | file => right; right; simp [check_required_str, errsOf, hg]

theorem errsOf_check_optional_str (ps : Params) (k : String) :
    errsOf (check_optional_str ps k) = [] ∨
    errsOf (check_optional_str ps k) = [⟨k, "string_type"⟩] := by
  cases hg : Params.get ps k with
  | none => left; simp [check_optional_str, errsOf, hg]
  | some v =>
    cases v with
    | str s => left; simp [check_optional_str, errsOf, hg]
    | file => right; simp [check_optional_str, errsOf, hg]

theorem errsOf_check_optional_url (ps : Params) (k : String) :
    errsOf (check_optional_url ps k) = [] ∨
    errsOf (check_optional_url ps k) = [⟨k, "url_parsing"⟩] := by
  cases hg : Params.get ps k with
  | none => left; simp [check_optional_url, errsOf, hg]
  | some v =>
    cases v with
    | str s =>
      cases hp : parseAnyUrl s with
      | none => right; simp [check_optional_url, errsOf, hg, hp]
      | some u => left; simp [check_optional_url, errsOf, hg, hp]
    | file => right; simp [check_optional_url, errsOf, hg]

theorem errsOf_check_literal (ps : Params) (k lit : String) (required : Bool) :
    errsOf (check_literal ps k lit required) = [] ∨
    errsOf (check_literal ps k lit required) = [⟨k, "missing"⟩] ∨
    errsOf (check_literal ps k lit required) = [⟨k, "literal_error"⟩] := by
  cases hg : Params.get ps k with
  | none =>
    cases required with
    | true => right; left; simp [check_literal, errsOf, hg]
    | false => left; simp [check_literal, errsOf, hg]
  | some v =>
    cases v with
    | str s =>
      cases he : s == lit with
      | true => left; simp [check_literal, errsOf, hg, he]
      | false => right; right; simp [check_literal, errsOf, hg, he]
    | file => right; right; simp [check_literal, errsOf, hg]

/-! ### Claim theorems -/

/-- C2: for every request on which structural validation fails, the failure
is classified as unsupported_response_type exactly when the only or first
literal-type violation among the field errors is on response_type, and as
invalid_request otherwise. -/
theorem C2_unsupported_response_type_classification (ps : Params) (errs : List FieldError)
    (h : authzValidate ps = Except.error errs) :
    classify_validation_error errs = AuthorizationErrorCode.unsupported_response_type ↔
      first_literal_violation_on_response_type errs = true := by
  have herrs := authzValidate_error_eq ps errs h
  subst herrs
  unfold authz_field_errors
  rcases errsOf_check_required_str ps "client_id" with hA | hA | hA <;>
  rcases errsOf_check_optional_url ps "redirect_uri" with hB | hB <;>
  rcases errsOf_check_literal ps "response_type" "code" true with hC | hC | hC <;>
  rcases errsOf_check_required_str ps "code_challenge" with hD | hD | hD <;>
  rcases errsOf_check_literal ps "code_challenge_method" "S256" false with hE | hE | hE <;>
  rcases errsOf_check_optional_str ps "state" with hF | hF <;>
  rcases errsOf_check_optional_str ps "scope" with hG | hG <;>
  rcases errsOf_check_optional_str ps "resource" with hH | hH <;>
  rw [hA, hB, hC, hD, hE, hF, hG, hH] <;> decide

/-- C2 witness: a concrete failing request (missing client_id, bad
response_type) on which the equivalence is instantiated. -/
theorem C2_unsupported_response_type_classification_witness :
    classify_validation_error
        [⟨"client_id", "missing"⟩, ⟨"response_type", "literal_error"⟩] =
        AuthorizationErrorCode.unsupported_response_type ↔
      first_literal_violation_on_response_type
        [⟨"client_id", "missing"⟩, ⟨"response_type", "literal_error"⟩] = true :=
  C2_unsupported_response_type_classification
    [("response_type", ParamValue.str "token"), ("code_challenge", ParamValue.str "abc")]
    [⟨"client_id", "missing"⟩, ⟨"response_type", "literal_error"⟩] rfl

/-- C1: every invocation of error_response delivers the error as a 302
redirect if and only if both the client and the redirect_uri of the recovery
context are known after the recovery steps; otherwise it is a direct 400
response carrying the structured error body. In the redirect case the
Location is built from a redirect URI returned by the validate_redirect_uri
operation of the known client (the entry context is assumed to satisfy this,
as every call site does), never from a bare request-supplied value, with the
non-absent error fields appended as query parameters. -/
theorem C1_error_delivery_decision (provider : Provider) (params : Option Params)
    (ctx : RecoveryContext) (err : AuthorizationErrorCode) (desc : Option String)
    (alc : Bool) (ctx2 : RecoveryContext) (resp : Response)
    (hctx : ∀ u, ctx.redirect_uri = some u → ValidatedRedirect ctx.client u)
    (h : error_response provider params ctx err desc alc = (ctx2, resp)) :
    ((∃ loc, resp = Response.redirect loc 302 "no-store") ↔
      (ctx2.client.isSome ∧ ctx2.redirect_uri.isSome))
    ∧ (¬ (ctx2.client.isSome ∧ ctx2.redirect_uri.isSome) →
        resp = Response.jsonError 400 ⟨err, desc, none, ctx2.state⟩ "no-store")
    ∧ (∀ loc, resp = Response.redirect loc 302 "no-store" →
        ∃ u, ctx2.redirect_uri = some u ∧ ValidatedRedirect ctx2.client u ∧
          loc = construct_redirect_uri u.toStr
            (model_dump_exclude_none ⟨err, desc, none, ctx2.state⟩)) := by
  cases hc : recover_client provider params ctx.client alc with
  | none =>
    rw [error_response_direct_case provider params ctx err desc alc (Or.inr hc)] at h
    cases h
    rw [hc]
    refine ⟨?_, fun _ => rfl, ?_⟩
    · constructor
      · rintro ⟨loc, hl⟩; cases hl
      · rintro ⟨h1, h2⟩; simp at h1
    · intro loc hl; cases hl
  | some c =>
    cases hru : recover_redirect_uri params ctx.redirect_uri (some c) with
    | none =>
      rw [error_response_direct_case provider params ctx err desc alc
        (Or.inl (by rw [hc]; exact hru))] at h
      cases h
      rw [hc, hru]
      refine ⟨?_, fun _ => rfl, ?_⟩
      · constructor
        · rintro ⟨loc, hl⟩; cases hl
        · rintro ⟨h1, h2⟩; simp at h2
      · intro loc hl; cases hl
    | some u =>
      rw [error_response_redirect_case provider params ctx err desc alc u c hc hru] at h
      cases h
      have hval : ValidatedRedirect (some c) u := by
        cases hr0 : ctx.redirect_uri with
        | some u0 =>
          obtain ⟨c0, raw, hcc, hv⟩ := hctx u0 hr0
          rw [hcc, recover_client_of_some] at hc
          rw [hr0, recover_redirect_uri_of_some] at hru
          cases hc
          cases hru
          exact ⟨_, raw, rfl, hv⟩
        | none =>
          rw [hr0] at hru
          obtain ⟨raw, hv⟩ := recover_redirect_uri_validated params c u hru
          exact ⟨c, raw, rfl, hv⟩
      refine ⟨?_, ?_, ?_⟩
      · simp
      · rintro hcontra; exact absurd ⟨rfl, rfl⟩ hcontra
      · intro loc hl
        cases hl
        exact ⟨u, rfl, hval, rfl⟩

/-- C1 witness: a request bag carrying client id c1, an empty entry context;
the client and its default redirect are recovered, so the error goes out as a
302 redirect to the validated URI with the error fields appended. -/
theorem C1_error_delivery_decision_witness :
    ((∃ loc, Response.redirect "https://app/cb?error=invalid_scope&error_description=d"
          302 "no-store" = Response.redirect loc 302 "no-store") ↔
      ((some demoClient).isSome ∧ (some (⟨"https://app/cb"⟩ : Url)).isSome))
    ∧ (¬ ((some demoClient).isSome ∧ (some (⟨"https://app/cb"⟩ : Url)).isSome) →
        Response.redirect "https://app/cb?error=invalid_scope&error_description=d"
            302 "no-store" =
          Response.jsonError 400
            ⟨AuthorizationErrorCode.invalid_scope, some "d", none, none⟩ "no-store")
    ∧ (∀ loc, Response.redirect "https://app/cb?error=invalid_scope&error_description=d"
          302 "no-store" = Response.redirect loc 302 "no-store" →
        ∃ u, (some (⟨"https://app/cb"⟩ : Url)) = some u ∧
          ValidatedRedirect (some demoClient) u ∧
          loc = construct_redirect_uri u.toStr
            (model_dump_exclude_none
              ⟨AuthorizationErrorCode.invalid_scope, some "d", none, none⟩)) :=
  C1_error_delivery_decision demoProvider (some [("client_id", ParamValue.str "c1")])
    ⟨none, none, none⟩ AuthorizationErrorCode.invalid_scope (some "d") true
    ⟨some demoClient, some ⟨"https://app/cb"⟩, none⟩
    (Response.redirect "https://app/cb?error=invalid_scope&error_description=d" 302 "no-store")
    (fun u hu => by cases hu) rfl

/-- C9: every invocation of the error responder leaves each recovery context
field (client, redirect_uri, state) that is already non-absent on entry
unchanged: recovery only fills absent fields and never overrides a value set
by the primary validation path. -/
theorem C9_recovery_never_overrides (provider : Provider) (params : Option Params)
    (ctx : RecoveryContext) (e : AuthorizationErrorCode) (d : Option String) (alc : Bool) :
    (∀ c, ctx.client = some c →
        (error_response provider params ctx e d alc).1.client = some c)
    ∧ (∀ u, ctx.redirect_uri = some u →
        (error_response provider params ctx e d alc).1.redirect_uri = some u)
    ∧ (∀ s, ctx.state = some s →
        (error_response provider params ctx e d alc).1.state = some s) := by
  rw [error_response_ctx provider params ctx e d alc]
  refine ⟨?_, ?_, ?_⟩
  · intro c hcc
    rw [hcc, recover_client_of_some]
  · intro u huu
    rw [huu, recover_redirect_uri_of_some]
  · intro s hss
    rw [hss, recover_state_of_some]

/-- C9 witness: a fully known entry context survives recovery unchanged. -/
theorem C9_recovery_never_overrides_witness :
    (error_response demoProvider (some []) ⟨some demoClient, some ⟨"https://app/cb"⟩, some "xyz"⟩
        AuthorizationErrorCode.invalid_request (some "d") true).1.client = some demoClient
    ∧ (error_response demoProvider (some [])
        ⟨some demoClient, some ⟨"https://app/cb"⟩, some "xyz"⟩
        AuthorizationErrorCode.invalid_request (some "d") true).1.redirect_uri =
        some ⟨"https://app/cb"⟩
    ∧ (error_response demoProvider (some [])
        ⟨some demoClient, some ⟨"https://app/cb"⟩, some "xyz"⟩
        AuthorizationErrorCode.invalid_request (some "d") true).1.state = some "xyz" :=
  ⟨(C9_recovery_never_overrides demoProvider (some [])
      ⟨some demoClient, some ⟨"https://app/cb"⟩, some "xyz"⟩
      AuthorizationErrorCode.invalid_request (some "d") true).1 demoClient rfl,
   (C9_recovery_never_overrides demoProvider (some [])
      ⟨some demoClient, some ⟨"https://app/cb"⟩, some "xyz"⟩
      AuthorizationErrorCode.invalid_request (some "d") true).2.1 ⟨"https://app/cb"⟩ rfl,
   (C9_recovery_never_overrides demoProvider (some [])
      ⟨some demoClient, some ⟨"https://app/cb"⟩, some "xyz"⟩
      AuthorizationErrorCode.invalid_request (some "d") true).2.2 "xyz" rfl⟩

/-- C10: when the raw parameter bag was never assigned (the POST body read
fails), the error responder is still total: best-effort extraction returns
absent for every key when the bag is absent, the handler returns a direct
JSON 400 server_error response with state null (never a redirect), and no
provider lookup is attempted (the outcome is independent of the provider). -/
theorem C10_total_without_params (provider provider2 : Provider) (q : Params)
    (k : String) (d : Option String) :
    best_effort_extract_string k none = none
    ∧ handle provider ⟨"POST", q, Except.error ()⟩ =
        Response.jsonError 400
          ⟨AuthorizationErrorCode.server_error, some "An unexpected error occurred",
            none, none⟩ "no-store"
    ∧ error_response provider none ⟨none, none, none⟩
        AuthorizationErrorCode.server_error d true =
      error_response provider2 none ⟨none, none, none⟩
        AuthorizationErrorCode.server_error d true := by
  refine ⟨rfl, ?_, rfl⟩
  rw [handle_params_error provider ⟨"POST", q, Except.error ()⟩ () rfl]
  rfl

/-- C6: scenario B. A GET request with client_id unknown, response_type code
and code_challenge abc, on a provider that does not know the id, yields the
direct JSON 400 invalid_request body with the not-found description and null
state; the error responder is invoked with client recovery disabled, so the
outcome does not depend on the provider at all (no second lookup). -/
theorem C6_scenario_b (provider : Provider)
    (hc : provider.get_client "unknown" = none) :
    handle provider ⟨"GET",
        [("client_id", ParamValue.str "unknown"), ("response_type", ParamValue.str "code"),
          ("code_challenge", ParamValue.str "abc")], Except.ok []⟩ =
      (error_response provider
        (some [("client_id", ParamValue.str "unknown"),
          ("response_type", ParamValue.str "code"),
          ("code_challenge", ParamValue.str "abc")])
        ⟨none, none, none⟩ AuthorizationErrorCode.invalid_request
        (some (clientNotFoundMessage "unknown")) false).2
    ∧ handle provider ⟨"GET",
        [("client_id", ParamValue.str "unknown"), ("response_type", ParamValue.str "code"),
          ("code_challenge", ParamValue.str "abc")], Except.ok []⟩ =
      Response.jsonError 400
        ⟨AuthorizationErrorCode.invalid_request, some (clientNotFoundMessage "unknown"),
          none, none⟩ "no-store"
    ∧ ∀ p2 : Provider,
        (error_response p2
          (some [("client_id", ParamValue.str "unknown"),
            ("response_type", ParamValue.str "code"),
            ("code_challenge", ParamValue.str "abc")])
          ⟨none, none, none⟩ AuthorizationErrorCode.invalid_request
          (some (clientNotFoundMessage "unknown")) false).2 =
        Response.jsonError 400
          ⟨AuthorizationErrorCode.invalid_request, some (clientNotFoundMessage "unknown"),
            none, none⟩ "no-store" := by
  have h1 := handle_client_not_found provider
    ⟨"GET",
      [("client_id", ParamValue.str "unknown"), ("response_type", ParamValue.str "code"),
        ("code_challenge", ParamValue.str "abc")], Except.ok []⟩
    [("client_id", ParamValue.str "unknown"), ("response_type", ParamValue.str "code"),
      ("code_challenge", ParamValue.str "abc")]
    ⟨"unknown", none, "code", "abc", "S256", none, none, none⟩ rfl rfl hc
  exact ⟨h1, by rw [h1]; rfl, fun p2 => rfl⟩

/-- C6 witness: the concrete provider registering only c1. -/
theorem C6_scenario_b_witness :
    handle demoProvider ⟨"GET",
        [("client_id", ParamValue.str "unknown"), ("response_type", ParamValue.str "code"),
          ("code_challenge", ParamValue.str "abc")], Except.ok []⟩ =
      Response.jsonError 400
        ⟨AuthorizationErrorCode.invalid_request, some (clientNotFoundMessage "unknown"),
          none, none⟩ "no-store" :=
  (C6_scenario_b demoProvider rfl).2.1

/-- C3 counterexample: a request whose bag has no client_id but whose
response_type is the wrong literal gets a direct JSON 400 whose error code is
unsupported_response_type, not invalid_request as the claim demands. -/
theorem C3_counterexample :
    best_effort_extract_string "client_id"
        (some [("response_type", ParamValue.str "token"),
          ("code_challenge", ParamValue.str "abc")]) = none
    ∧ handle demoProvider ⟨"GET",
        [("response_type", ParamValue.str "token"), ("code_challenge", ParamValue.str "abc")],
        Except.ok []⟩ =
      Response.jsonError 400
        ⟨AuthorizationErrorCode.unsupported_response_type,
          some "client_id: missing; response_type: literal_error", none, none⟩ "no-store"
    ∧ AuthorizationErrorCode.unsupported_response_type ≠
        AuthorizationErrorCode.invalid_request :=
  ⟨rfl, rfl, by decide⟩

/-- C3 amended: for every request whose raw parameter bag contains no
client_id value, the response is a direct JSON 400 and never a redirect; its
error code is invalid_request unless the aggregated field errors include a
literal-type violation on response_type, in which case it is
unsupported_response_type. -/
theorem C3_missing_client_id_direct (provider : Provider) (req : HttpRequest) (ps : Params)
    (hp : request_params req = Except.ok ps)
    (hcid : best_effort_extract_string "client_id" (some ps) = none) :
    handle provider req =
      Response.jsonError 400
        ⟨classify_validation_error (authz_field_errors ps),
          some (stringify_pydantic_error (authz_field_errors ps)), none,
          best_effort_extract_string "state" (some ps)⟩ "no-store"
    ∧ (classify_validation_error (authz_field_errors ps) =
          AuthorizationErrorCode.invalid_request
        ∨ classify_validation_error (authz_field_errors ps) =
          AuthorizationErrorCode.unsupported_response_type)
    ∧ (classify_validation_error (authz_field_errors ps) =
          AuthorizationErrorCode.unsupported_response_type ↔
        ∃ e ∈ authz_field_errors ps, e.loc = "response_type" ∧ e.etype = "literal_error") := by
  obtain ⟨efe, herr⟩ := check_required_str_error_of_extract_none ps "client_id" hcid
  have hv : authzValidate ps = Except.error (authz_field_errors ps) :=
    authzValidate_error_of_client_id ps efe herr
  refine ⟨?_, classify_cases _, classify_eq_unsupported_iff _⟩
  rw [handle_validation_error provider req ps _ hp hv]
  have h1 : recover_client provider (some ps) none true = none := by
    simp [recover_client, hcid]
  rw [error_response_direct_resp provider (some ps)
    ⟨none, none, best_effort_extract_string "state" (some ps)⟩ _ _ true (Or.inr h1)]
  dsimp only
  rw [recover_state_extract ps]

/-- C3 amended witness: a bag with neither client_id nor response_type is
classified invalid_request and answered directly, echoing its state. -/
theorem C3_missing_client_id_direct_witness :
    handle demoProvider ⟨"GET",
        [("code_challenge", ParamValue.str "abc"), ("state", ParamValue.str "s7")],
        Except.ok []⟩ =
      Response.jsonError 400
        ⟨classify_validation_error (authz_field_errors
            [("code_challenge", ParamValue.str "abc"), ("state", ParamValue.str "s7")]),
          some (stringify_pydantic_error (authz_field_errors
            [("code_challenge", ParamValue.str "abc"), ("state", ParamValue.str "s7")])),
          none,
          best_effort_extract_string "state"
            (some [("code_challenge", ParamValue.str "abc"),
              ("state", ParamValue.str "s7")])⟩ "no-store"
    ∧ (classify_validation_error (authz_field_errors
          [("code_challenge", ParamValue.str "abc"), ("state", ParamValue.str "s7")]) =
          AuthorizationErrorCode.invalid_request
        ∨ classify_validation_error (authz_field_errors
          [("code_challenge", ParamValue.str "abc"), ("state", ParamValue.str "s7")]) =
          AuthorizationErrorCode.unsupported_response_type)
    ∧ (classify_validation_error (authz_field_errors
          [("code_challenge", ParamValue.str "abc"), ("state", ParamValue.str "s7")]) =
          AuthorizationErrorCode.unsupported_response_type ↔
        ∃ e ∈ authz_field_errors
            [("code_challenge", ParamValue.str "abc"), ("state", ParamValue.str "s7")],
          e.loc = "response_type" ∧ e.etype = "literal_error") :=
  C3_missing_client_id_direct demoProvider
    ⟨"GET", [("code_challenge", ParamValue.str "abc"), ("state", ParamValue.str "s7")],
      Except.ok []⟩
    [("code_challenge", ParamValue.str "abc"), ("state", ParamValue.str "s7")] rfl rfl

/-- C4: a request that passes structural validation and resolves a client,
but whose redirect_uri is rejected by the validate_redirect_uri operation of
the client, gets a direct JSON 400 invalid_request carrying the rejection
message and the validated state — never a redirect: the recovery re-attempt
evaluates the same deterministic validation on the same candidate, fails
again and is swallowed without replacing the original error. -/
theorem C4_rejected_redirect_uri_direct (provider : Provider) (req : HttpRequest)
    (ps : Params) (ar : AuthorizationRequest) (client : OAuthClient) (msg : String)
    (hp : request_params req = Except.ok ps)
    (hv : authzValidate ps = Except.ok ar)
    (hc : provider.get_client ar.client_id = some client)
    (hr : client.validate_redirect_uri ar.redirect_uri = Except.error msg) :
    handle provider req =
      Response.jsonError 400
        ⟨AuthorizationErrorCode.invalid_request, some msg, none, ar.state⟩ "no-store" := by
  obtain ⟨hcid, hru, hst, hsc⟩ := authzValidate_ok_fields ps ar hv
  rw [handle_redirect_rejected provider req ps ar client msg hp hv hc hr]
  have h1 : recover_client provider (some ps) (some client) true = some client :=
    recover_client_of_some provider (some ps) client true
  have h2 : recover_redirect_uri (some ps) none (some client) = none := by
    simp only [recover_redirect_uri]
    rw [raw_redirect_of_check ps ar.redirect_uri hru]
    simp [hr]
  have hor : recover_redirect_uri (some ps)
      ((⟨some client, none, ar.state⟩ : RecoveryContext).redirect_uri)
      (recover_client provider (some ps)
        ((⟨some client, none, ar.state⟩ : RecoveryContext).client) true) = none := by
    dsimp only
    rw [h1]
    exact h2
  rw [error_response_direct_resp provider (some ps) ⟨some client, none, ar.state⟩ _ _ true
    (Or.inl hor)]
  dsimp only
  have hex := extract_of_check_optional_str ps "state" ar.state hst
  have h3 : recover_state (some ps) ar.state = ar.state := by
    cases hs : ar.state with
    | some s => rfl
    | none =>
      show best_effort_extract_string "state" (some ps) = none
      rw [hex, hs]
  rw [h3]

/-- C4 witness: client c1 with registered redirect https://app/cb rejects the
supplied https://evil/cb; the answer is the direct 400 with the mismatch
message and the request state. -/
theorem C4_rejected_redirect_uri_direct_witness :
    handle demoProvider ⟨"GET",
        [("client_id", ParamValue.str "c1"), ("response_type", ParamValue.str "code"),
          ("code_challenge", ParamValue.str "abc"),
          ("redirect_uri", ParamValue.str "https://evil/cb"),
          ("state", ParamValue.str "xyz")], Except.ok []⟩ =
      Response.jsonError 400
        ⟨AuthorizationErrorCode.invalid_request, some "redirect mismatch", none,
          some "xyz"⟩ "no-store" :=
  C4_rejected_redirect_uri_direct demoProvider
    ⟨"GET",
      [("client_id", ParamValue.str "c1"), ("response_type", ParamValue.str "code"),
        ("code_challenge", ParamValue.str "abc"),
        ("redirect_uri", ParamValue.str "https://evil/cb"),
        ("state", ParamValue.str "xyz")], Except.ok []⟩
    [("client_id", ParamValue.str "c1"), ("response_type", ParamValue.str "code"),
      ("code_challenge", ParamValue.str "abc"),
      ("redirect_uri", ParamValue.str "https://evil/cb"),
      ("state", ParamValue.str "xyz")]
    ⟨"c1", some ⟨"https://evil/cb"⟩, "code", "abc", "S256", some "xyz", none, none⟩
    demoClient "redirect mismatch" rfl rfl rfl rfl

/-- C7 counterexample: on scenario C the produced Location also carries the
error_description query parameter (the error response dump excludes only
absent fields, and the description is always present on this path), so it is
not exactly the claimed https://app/cb?error=unsupported_response_type&state=s1. -/
theorem C7_counterexample :
    handle demoProvider ⟨"GET",
        [("client_id", ParamValue.str "c1"), ("response_type", ParamValue.str "token"),
          ("code_challenge", ParamValue.str "abc"), ("state", ParamValue.str "s1")],
        Except.ok []⟩ =
      Response.redirect
        "https://app/cb?error=unsupported_response_type&error_description=response_type: literal_error&state=s1"
        302 "no-store"
    ∧ ("https://app/cb?error=unsupported_response_type&error_description=response_type: literal_error&state=s1" : String) ≠
        "https://app/cb?error=unsupported_response_type&state=s1" :=
  ⟨rfl, by decide⟩

/-- C7 amended: on scenario C (GET client_id=c1, response_type=token,
code_challenge=abc, state=s1, client c1 resolvable with default redirect
https://app/cb), structural validation fails with unsupported_response_type,
recovery resolves c1 and its default redirect, and the response is a 302
redirect whose Location is https://app/cb with the query parameters error,
error_description (the aggregated field-error text) and state=s1 appended —
i.e. the claimed Location merely omits the error_description parameter that
is appended as well. -/
theorem C7_scenario_c (provider : Provider) (c1 : OAuthClient)
    (hc : provider.get_client "c1" = some c1)
    (hr : c1.validate_redirect_uri none = Except.ok ⟨"https://app/cb"⟩) :
    handle provider ⟨"GET",
        [("client_id", ParamValue.str "c1"), ("response_type", ParamValue.str "token"),
          ("code_challenge", ParamValue.str "abc"), ("state", ParamValue.str "s1")],
        Except.ok []⟩ =
      Response.redirect
        (construct_redirect_uri "https://app/cb"
          [("error", "unsupported_response_type"),
            ("error_description",
              stringify_pydantic_error [⟨"response_type", "literal_error"⟩]),
            ("state", "s1")]) 302 "no-store" := by
  have hv : authzValidate
      [("client_id", ParamValue.str "c1"), ("response_type", ParamValue.str "token"),
        ("code_challenge", ParamValue.str "abc"), ("state", ParamValue.str "s1")] =
      Except.error [⟨"response_type", "literal_error"⟩] := rfl
  rw [handle_validation_error provider
    ⟨"GET",
      [("client_id", ParamValue.str "c1"), ("response_type", ParamValue.str "token"),
        ("code_challenge", ParamValue.str "abc"), ("state", ParamValue.str "s1")],
      Except.ok []⟩
    [("client_id", ParamValue.str "c1"), ("response_type", ParamValue.str "token"),
      ("code_challenge", ParamValue.str "abc"), ("state", ParamValue.str "s1")]
    [⟨"response_type", "literal_error"⟩] rfl hv]
  have h1 : recover_client provider
      (some [("client_id", ParamValue.str "c1"), ("response_type", ParamValue.str "token"),
        ("code_challenge", ParamValue.str "abc"), ("state", ParamValue.str "s1")])
      none true = some c1 := by
    simp [recover_client, best_effort_extract_string, show Params.get
      [("client_id", ParamValue.str "c1"), ("response_type", ParamValue.str "token"),
        ("code_challenge", ParamValue.str "abc"), ("state", ParamValue.str "s1")] "client_id" =
      some (ParamValue.str "c1") from rfl, hc]
  have h2 : recover_redirect_uri
      (some [("client_id", ParamValue.str "c1"), ("response_type", ParamValue.str "token"),
        ("code_challenge", ParamValue.str "abc"), ("state", ParamValue.str "s1")])
      none (some c1) = some ⟨"https://app/cb"⟩ := by
    simp only [recover_redirect_uri,
      show recover_raw_redirect
        (some [("client_id", ParamValue.str "c1"), ("response_type", ParamValue.str "token"),
          ("code_challenge", ParamValue.str "abc"), ("state", ParamValue.str "s1")]) =
        Except.ok none from rfl, hr]
  rw [error_response_redirect_case provider _ _ _ _ true ⟨"https://app/cb"⟩ c1 h1 h2]
  rfl

/-- C7 witness for the amended statement: the concrete provider and client
instantiate the hypotheses. -/
theorem C7_scenario_c_witness :
    handle demoProvider ⟨"GET",
        [("client_id", ParamValue.str "c1"), ("response_type", ParamValue.str "token"),
          ("code_challenge", ParamValue.str "abc"), ("state", ParamValue.str "s1")],
        Except.ok []⟩ =
      Response.redirect
        (construct_redirect_uri "https://app/cb"
          [("error", "unsupported_response_type"),
            ("error_description",
              stringify_pydantic_error [⟨"response_type", "literal_error"⟩]),
            ("state", "s1")]) 302 "no-store" :=
  C7_scenario_c demoProvider demoClient rfl rfl

/-- C8: with conforming collaborators (modelled by the typed provider
interface: get_client returns a client or absent, the validation operations
fail only with their named errors, authorize fails only with a structured
AuthorizeError), the handler always returns exactly one structured response —
a 302 redirect or a direct 400 JSON error, both with Cache-Control no-store —
and converts the one unanticipated failure (the parameter read) into a
server_error response with a generic description. -/
theorem C8_structured_outcome (provider : Provider) (req : HttpRequest) :
    ((∃ loc, handle provider req = Response.redirect loc 302 "no-store")
      ∨ (∃ body, handle provider req = Response.jsonError 400 body "no-store"))
    ∧ (∀ e : Unit, request_params req = Except.error e →
        handle provider req =
          Response.jsonError 400
            ⟨AuthorizationErrorCode.server_error, some "An unexpected error occurred",
              none, none⟩ "no-store") := by
  constructor
  · cases hp : request_params req with
    | error e =>
      rw [handle_params_error provider req e hp]
      exact error_response_shape provider none ⟨none, none, none⟩ _ _ true
    | ok ps =>
      cases hv : authzValidate ps with
      | error verr =>
        rw [handle_validation_error provider req ps verr hp hv]
        exact error_response_shape provider (some ps) _ _ _ true
      | ok ar =>
        cases hc : provider.get_client ar.client_id with
        | none =>
          rw [handle_client_not_found provider req ps ar hp hv hc]
          exact error_response_shape provider (some ps) _ _ _ false
        | some client =>
          cases hr : client.validate_redirect_uri ar.redirect_uri with
          | error msg =>
            rw [handle_redirect_rejected provider req ps ar client msg hp hv hc hr]
            exact error_response_shape provider (some ps) _ _ _ true
          | ok ru =>
            cases hsc : client.validate_scope ar.scope with
            | error msg =>
              rw [handle_scope_rejected provider req ps ar client ru msg hp hv hc hr hsc]
              exact error_response_shape provider (some ps) _ _ _ true
            | ok scopes =>
              cases ha : provider.authorize client
                  ⟨ar.state, scopes, ar.code_challenge, ru, ar.redirect_uri.isSome,
                    ar.resource⟩ with
              | ok url =>
                left
                exact ⟨url, handle_authorize_ok provider req ps ar client ru scopes url
                  hp hv hc hr hsc ha⟩
              | error e2 =>
                rw [handle_authorize_error provider req ps ar client ru scopes e2
                  hp hv hc hr hsc ha]
                exact error_response_shape provider (some ps) _ _ _ true
  · intro e hp
    rw [handle_params_error provider req e hp]
    rfl

/-- C8 witness: a POST request whose body read fails is answered with the
generic server_error response. -/
theorem C8_structured_outcome_witness :
    handle demoProvider ⟨"POST", [], Except.error ()⟩ =
      Response.jsonError 400
        ⟨AuthorizationErrorCode.server_error, some "An unexpected error occurred",
          none, none⟩ "no-store" :=
  (C8_structured_outcome demoProvider ⟨"POST", [], Except.error ()⟩).2 () rfl

theorem error_response_state_echo (provider : Provider) (params : Option Params)
    (ctx : RecoveryContext) (e : AuthorizationErrorCode) (d : Option String) (alc : Bool)
    (s : String) (hst : recover_state params ctx.state = some s) :
    (∀ st body hdr, (error_response provider params ctx e d alc).2 =
        Response.jsonError st body hdr → body.state = some s)
    ∧ (∀ loc status hdr, (error_response provider params ctx e d alc).2 =
        Response.redirect loc status hdr →
        ∃ u fields, loc = construct_redirect_uri u fields ∧ ("state", s) ∈ fields) := by
  cases hc : recover_client provider params ctx.client alc with
  | none =>
    rw [error_response_direct_case provider params ctx e d alc (Or.inr hc)]
    constructor
    · intro st body hdr h
      injection h with h1 h2 h3
      rw [← h2]
      exact hst
    · intro loc status hdr h
      simp at h
  | some c =>
    cases hru : recover_redirect_uri params ctx.redirect_uri (some c) with
    | none =>
      rw [error_response_direct_case provider params ctx e d alc
        (Or.inl (by rw [hc]; exact hru))]
      constructor
      · intro st body hdr h
        injection h with h1 h2 h3
        rw [← h2]
        exact hst
      · intro loc status hdr h
        simp at h
    | some u =>
      rw [error_response_redirect_case provider params ctx e d alc u c hc hru]
      constructor
      · intro st body hdr h
        simp at h
      · intro loc status hdr h
        injection h with h1 h2 h3
        refine ⟨u.toStr,
          model_dump_exclude_none ⟨e, d, none, recover_state params ctx.state⟩,
          h1.symm, ?_⟩
        rw [hst]
        simp [model_dump_exclude_none]

/-- C5: whenever a plain string state value is extractable from the raw
parameter bag, every error response produced for that request — whether
delivered as a direct JSON body or as a redirect — carries that state value
in its state field (for a redirect, among the appended query parameters);
the only other possible outcome is the provider-issued success redirect,
whose authorization parameters also carry that state. -/
theorem C5_state_echoed (provider : Provider) (req : HttpRequest) (ps : Params) (s : String)
    (hp : request_params req = Except.ok ps)
    (hs : best_effort_extract_string "state" (some ps) = some s) :
    (∀ st body hdr, handle provider req = Response.jsonError st body hdr →
        body.state = some s)
    ∧ (∀ loc status hdr, handle provider req = Response.redirect loc status hdr →
        (∃ client ap, provider.authorize client ap = Except.ok loc ∧ ap.state = some s)
        ∨ ∃ u fields, loc = construct_redirect_uri u fields ∧ ("state", s) ∈ fields) := by
  cases hv : authzValidate ps with
  | error verr =>
    rw [handle_validation_error provider req ps verr hp hv]
    have hst : recover_state (some ps) (best_effort_extract_string "state" (some ps)) =
        some s := by
      rw [hs]
      rfl
    obtain ⟨hj, hr2⟩ := error_response_state_echo provider (some ps)
      ⟨none, none, best_effort_extract_string "state" (some ps)⟩ _ _ true s hst
    exact ⟨hj, fun loc status hdr h => Or.inr (hr2 loc status hdr h)⟩
  | ok ar =>
    obtain ⟨hcid, hru0, hst0, hsc0⟩ := authzValidate_ok_fields ps ar hv
    have har : ar.state = some s := by
      have hex := extract_of_check_optional_str ps "state" ar.state hst0
      rw [hex] at hs
      exact hs
    have hctxstate : recover_state (some ps) ar.state = some s := by
      rw [har]
      rfl
    cases hc : provider.get_client ar.client_id with
    | none =>
      rw [handle_client_not_found provider req ps ar hp hv hc]
      obtain ⟨hj, hr2⟩ := error_response_state_echo provider (some ps)
        ⟨none, none, ar.state⟩ _ _ false s hctxstate
      exact ⟨hj, fun loc status hdr h => Or.inr (hr2 loc status hdr h)⟩
    | some client =>
      cases hr : client.validate_redirect_uri ar.redirect_uri with
      | error msg =>
        rw [handle_redirect_rejected provider req ps ar client msg hp hv hc hr]
        obtain ⟨hj, hr2⟩ := error_response_state_echo provider (some ps)
          ⟨some client, none, ar.state⟩ _ _ true s hctxstate
        exact ⟨hj, fun loc status hdr h => Or.inr (hr2 loc status hdr h)⟩
      | ok ru =>
        cases hsc : client.validate_scope ar.scope with
        | error msg =>
          rw [handle_scope_rejected provider req ps ar client ru msg hp hv hc hr hsc]
          obtain ⟨hj, hr2⟩ := error_response_state_echo provider (some ps)
            ⟨some client, some ru, ar.state⟩ _ _ true s hctxstate
          exact ⟨hj, fun loc status hdr h => Or.inr (hr2 loc status hdr h)⟩
        | ok scopes =>
          cases ha : provider.authorize client
              ⟨ar.state, scopes, ar.code_challenge, ru, ar.redirect_uri.isSome,
                ar.resource⟩ with
          | ok url =>
            rw [handle_authorize_ok provider req ps ar client ru scopes url
              hp hv hc hr hsc ha]
            constructor
            · intro st body hdr h
              simp at h
            · intro loc status hdr h
              injection h with h1 h2 h3
              left
              exact ⟨client,
                ⟨ar.state, scopes, ar.code_challenge, ru, ar.redirect_uri.isSome,
                  ar.resource⟩, by rw [← h1]; exact ha, har⟩
          | error e2 =>
            rw [handle_authorize_error provider req ps ar client ru scopes e2
              hp hv hc hr hsc ha]
            obtain ⟨hj, hr2⟩ := error_response_state_echo provider (some ps)
              ⟨some client, some ru, ar.state⟩ _ _ true s hctxstate
            exact ⟨hj, fun loc status hdr h => Or.inr (hr2 loc status hdr h)⟩

/-- C5 witness: a failing request (missing client_id and code_challenge)
whose bag carries state sw; the direct error body echoes it. -/
theorem C5_state_echoed_witness :
    (∀ st body hdr, handle demoProvider
        ⟨"GET", [("response_type", ParamValue.str "code"), ("state", ParamValue.str "sw")],
          Except.ok []⟩ = Response.jsonError st body hdr → body.state = some "sw")
    ∧ (∀ loc status hdr, handle demoProvider
        ⟨"GET", [("response_type", ParamValue.str "code"), ("state", ParamValue.str "sw")],
          Except.ok []⟩ = Response.redirect loc status hdr →
        (∃ client ap, demoProvider.authorize client ap = Except.ok loc ∧
          ap.state = some "sw")
        ∨ ∃ u fields, loc = construct_redirect_uri u fields ∧ ("state", "sw") ∈ fields) :=
  C5_state_echoed demoProvider
    ⟨"GET", [("response_type", ParamValue.str "code"), ("state", ParamValue.str "sw")],
      Except.ok []⟩
    [("response_type", ParamValue.str "code"), ("state", ParamValue.str "sw")] "sw" rfl rfl

end MCPAuthorize
